import Mathlib

/-!
Verification development for the careerVoiceAgent repository.

The definitions below are a shallow embedding of the two components the
claims are about:

* `src/whatsapp_bot/whatsapp_direct_api.py` — the WhatsApp webhook: the GET
  handshake `verify_webhook`, the POST handler `receive_webhook`, the
  signature check `verify_webhook_signature` (with the `hashlib`/`hmac`
  collaborators embedded concretely as SHA-256 / HMAC-SHA256 on byte lists),
  the message router `process_message` / `handle_text_message` /
  `handle_button_reply`, and the senders `send_text_message`,
  `send_button_message`, `send_welcome_message`, `send_career_advice`,
  `send_default_message`.  Outbound network calls (`requests.post`) are
  modelled as an explicit `Effect` trace; the success of a post is an input
  (`net : Bool`), and `random.choice` is an input (`choice : Nat`, reduced
  modulo the list length).
* `src/career_coach.py` — the outbound-call `entrypoint`, modelled as a
  function from the external outcomes (metadata parse, dial success,
  recording start, recording stop) to the trace of lifecycle events.

Python string truthiness (`if s:`) is modelled by `strTruthy` on
`Option String`; `dict.get` chains are modelled with `Option` fields.
Byte strings are `List Nat` with each element a byte value; 32-bit machine
arithmetic in SHA-256 is `Nat` reduced modulo `2 ^ 32`.
-/

namespace CareerVoiceAgent

/-- Byte strings (Python `bytes`): lists of byte values below 256. -/
abbrev Bytes := List Nat

/-- Python truthiness of an optional string: `None` and `""` are falsy. -/
def strTruthy : Option String → Bool
  | none => false
  | some s => s ≠ ""

/-- UTF-8 encoding of one character, as Python `str.encode()` produces. -/
def charUtf8 (c : Char) : Bytes :=
  let n := c.toNat
  if n < 128 then [n]
  else if n < 2048 then [192 + n / 64, 128 + n % 64]
  else if n < 65536 then [224 + n / 4096, 128 + (n / 64) % 64, 128 + n % 64]
  else [240 + n / 262144, 128 + (n / 4096) % 64, 128 + (n / 64) % 64, 128 + n % 64]

/-- UTF-8 encoding of a string (Python `str.encode()`). -/
def strBytes (s : String) : Bytes := (s.toList.map charUtf8).flatten

/-! SHA-256, as implemented by `hashlib.sha256`.  Words are `Nat` kept below
`2 ^ 32` by explicit reduction. -/

/-- Reduce to a 32-bit word. -/
def mask32 (x : Nat) : Nat := x % 4294967296

/-- Right rotation of a 32-bit word by `n` bits. -/
def rotr32 (n x : Nat) : Nat := mask32 ((x >>> n) ||| (x <<< (32 - n)))

/-- Bitwise complement within 32 bits (input assumed below `2 ^ 32`). -/
def not32 (x : Nat) : Nat := 4294967295 - x

/-- The 64 SHA-256 round constants (in decimal). -/
def sha256K : List Nat :=
  [1116352408, 1899447441, 3049323471, 3921009573,
   961987163, 1508970993, 2453635748, 2870763221,
   3624381080, 310598401, 607225278, 1426881987,
   1925078388, 2162078206, 2614888103, 3248222580,
   3835390401, 4022224774, 264347078, 604807628,
   770255983, 1249150122, 1555081692, 1996064986,
   2554220882, 2821834349, 2952996808, 3210313671,
   3336571891, 3584528711, 113926993, 338241895,
   666307205, 773529912, 1294757372, 1396182291,
   1695183700, 1986661051, 2177026350, 2456956037,
   2730485921, 2820302411, 3259730800, 3345764771,
   3516065817, 3600352804, 4094571909, 275423344,
   430227734, 506948616, 659060556, 883997877,
   958139571, 1322822218, 1537002063, 1747873779,
   1955562222, 2024104815, 2227730452, 2361852424,
   2428436474, 2756734187, 3204031479, 3329325298]

/-- The SHA-256 initial hash state (in decimal). -/
def sha256H0 : List Nat :=
  [1779033703, 3144134277, 1013904242, 2773480762,
   1359893119, 2600822924, 528734635, 1541459225]

/-- Big-endian 8-byte encoding of a length in bits. -/
def lenBytes64 (n : Nat) : Bytes :=
  [(n >>> 56) % 256, (n >>> 48) % 256, (n >>> 40) % 256, (n >>> 32) % 256,
   (n >>> 24) % 256, (n >>> 16) % 256, (n >>> 8) % 256, n % 256]

/-- SHA-256 padding: append `0x80`, zero bytes to 56 mod 64, then the
bit length as an 8-byte big-endian integer. -/
def sha256pad (msg : Bytes) : Bytes :=
  let len := msg.length
  let zeros := (119 - (len % 64)) % 64
  msg ++ (128 :: List.replicate zeros 0) ++ lenBytes64 (len * 8)

/-- Group bytes into big-endian 32-bit words. -/
def toWords : Bytes → List Nat
  | a :: b :: c :: d :: rest => (((a * 256 + b) * 256 + c) * 256 + d) :: toWords rest
  | _ => []

/-- Indexing into the message schedule (in-range by construction). -/
def wAt (w : List Nat) (i : Nat) : Nat := w.getD i 0

/-- Extend a 16-word block by `n` further schedule words. -/
def extendW : Nat → List Nat → List Nat
  | 0, w => w
  | Nat.succ n, w =>
    let i := w.length
    let x15 := wAt w (i - 15)
    let x2 := wAt w (i - 2)
    let s0 := Nat.xor (Nat.xor (rotr32 7 x15) (rotr32 18 x15)) (x15 >>> 3)
    let s1 := Nat.xor (Nat.xor (rotr32 17 x2) (rotr32 19 x2)) (x2 >>> 10)
    extendW n (w ++ [mask32 (wAt w (i - 16) + s0 + wAt w (i - 7) + s1)])

/-- One SHA-256 compression round on the 8-word working state. -/
def sha256round (st : List Nat) (kw : Nat × Nat) : List Nat :=
  match st with
  | [a, b, c, d, e, f, g, h] =>
    let s1 := Nat.xor (Nat.xor (rotr32 6 e) (rotr32 11 e)) (rotr32 25 e)
    let ch := Nat.xor (Nat.land e f) (Nat.land (not32 e) g)
    let temp1 := mask32 (h + s1 + ch + kw.1 + kw.2)
    let s0 := Nat.xor (Nat.xor (rotr32 2 a) (rotr32 13 a)) (rotr32 22 a)
    let maj := Nat.xor (Nat.xor (Nat.land a b) (Nat.land a c)) (Nat.land b c)
    let temp2 := mask32 (s0 + maj)
    [mask32 (temp1 + temp2), a, b, c, mask32 (d + temp1), e, f, g]
  | other => other

/-- Compress one 16-word block into the hash state. -/
def sha256block (H : List Nat) (block : List Nat) : List Nat :=
  let w := extendW 48 block
  let final := (sha256K.zip w).foldl sha256round H
  (H.zip final).map fun p => mask32 (p.1 + p.2)

/-- Fold the compression function over all 16-word blocks. -/
def sha256blocks : List Nat → List Nat → List Nat
  | H, w0 :: w1 :: w2 :: w3 :: w4 :: w5 :: w6 :: w7 ::
      w8 :: w9 :: w10 :: w11 :: w12 :: w13 :: w14 :: w15 :: rest =>
    sha256blocks (sha256block H
      [w0, w1, w2, w3, w4, w5, w6, w7, w8, w9, w10, w11, w12, w13, w14, w15]) rest
  | H, _ => H

/-- Big-endian byte expansion of one 32-bit word. -/
def wordBytes (w : Nat) : Bytes :=
  [(w >>> 24) % 256, (w >>> 16) % 256, (w >>> 8) % 256, w % 256]

/-- SHA-256 of a byte string, as `hashlib.sha256(msg).digest()`. -/
def sha256 (msg : Bytes) : Bytes :=
  ((sha256blocks sha256H0 (toWords (sha256pad msg))).map wordBytes).flatten

/-- HMAC-SHA256, as `hmac.new(key, msg, hashlib.sha256).digest()`. -/
def hmacSha256 (key msg : Bytes) : Bytes :=
  let k0 := if key.length > 64 then sha256 key else key
  let k := k0 ++ List.replicate (64 - k0.length) 0
  let ipad := k.map (Nat.xor 54)
  let opad := k.map (Nat.xor 92)
  sha256 (opad ++ sha256 (ipad ++ msg))

/-- Lower-case hex character for a value below 16. -/
def hexChar (n : Nat) : Char := "0123456789abcdef".toList.getD n '0'

/-- Two lower-case hex characters for one byte. -/
def byteHex (b : Nat) : List Char := [hexChar (b / 16), hexChar (b % 16)]

/-- Lower-case hex string of a byte string (Python `.hexdigest()`). -/
def hexdigest (bytes : Bytes) : String := String.mk ((bytes.map byteHex).flatten)

/-- Python `str.replace("sha256=", "")`: remove every occurrence of the
seven-character pattern `sha256=`. -/
def replaceSha256 : List Char → List Char
  | [] => []
  | c :: rest =>
    if List.isPrefixOf ("sha256=".toList) (c :: rest) then
      replaceSha256 (rest.drop 6)
    else
      c :: replaceSha256 rest
termination_by l => l.length
decreasing_by
  · simp only [List.length_cons, List.length_drop]
    omega
  · simp only [List.length_cons]
    omega

/-- The signature check of `whatsapp_direct_api.py` (`verify_webhook_signature`):
returns false when the header or the configured secret is missing or empty,
otherwise strips the `sha256=` prefix, recomputes HMAC-SHA256 of the raw
payload bytes keyed by the secret, and compares digests
(`hmac.compare_digest`, i.e. equality). -/
def verify_webhook_signature (appSecret : Option String) (payload : Bytes)
    (signature : String) : Bool :=
  match appSecret with
  | none => false
  | some secret =>
    if signature = "" ∨ secret = "" then false
    else
      let sig := replaceSha256 signature.toList
      let expected := hexdigest (hmacSha256 (strBytes secret) payload)
      sig == expected.toList

/-! The canned texts of `whatsapp_direct_api.py`, transcribed verbatim
(apostrophes written as the escape `\x27`). -/

/-- The fixed set of welcome strings (`WELCOME_MESSAGES`). -/
def WELCOME_MESSAGES : List String :=
  ["Hello! I\x27m Coach Alex, your AI Career Advisor! 🚀\nHow can I help boost your career today?",
   "Hi there! Ready to level up your career? 💼\nWhat\x27s your biggest career question right now?",
   "Welcome! I\x27m here to help with all things career-related! 🎯\nWhat would you like to discuss?"]

/-- The fixed topic-advice table (`CAREER_ADVICE` dict lookup). -/
def CAREER_ADVICE (topic : String) : String :=
  if topic = "resume" then
    "📝 **Resume Tips:**\n\n✅ Keep it 1-2 pages maximum\n✅ Use action verbs (Led, Created, Improved)\n✅ Quantify achievements with numbers\n✅ Tailor keywords to job descriptions\n✅ Professional email & clean formatting\n\n**What field are you in?** I can give more specific advice! 🎯"
  else if topic = "interview" then
    "🎤 **Interview Success:**\n\n✅ Research the company thoroughly\n✅ Practice STAR method responses\n✅ Prepare thoughtful questions\n✅ Dress appropriately\n✅ Send thank you email within 24hrs\n\n**What type of interview?** Phone, video, or in-person? 🤔"
  else if topic = "salary" then
    "💰 **Salary Negotiation:**\n\n✅ Research market rates first\n✅ Know your value & achievements\n✅ Let them make the first offer\n✅ Negotiate total compensation package\n✅ Stay professional and positive\n\n**Current situation?** New job offer or asking for a raise? 📊"
  else ""

/-- The webhook-confirmation reply of the test branch (the f-string in
`handle_text_message`). -/
def testReply (text : String) : String :=
  "🎉 **Webhook Working!**\n\n✅ Message received: _" ++ text ++
  "_\n✅ Two-way communication active!\n\nI\x27m Coach Alex, ready to help with your career! 💼"

/-- The `goals` button response in `handle_button_reply`. -/
def goalsReply : String :=
  "🎯 **Career Goal Setting:**\n\nLet\x27s create your career roadmap! Tell me:\n• What\x27s your current role?\n• Where do you want to be in 2-5 years?\n• What\x27s most important to you?\n• What\x27s your biggest challenge?\n\nThe more specific, the better I can help! 🚀"

/-- The `jobs` button response in `handle_button_reply`. -/
def jobsReply : String :=
  "🔍 **Job Search Strategy:**\n\nJob hunting can be tough! Tell me:\n• What roles are you targeting?\n• How long have you been searching?\n• What methods are you using?\n• What\x27s been your biggest obstacle?\n\nLet\x27s create a winning plan! 💪"

/-- The fallback button response in `handle_button_reply`. -/
def unknownButtonReply : String :=
  "Great choice! Tell me more about what you need help with! 🤔"

/-- The composed general-career-advice template in `send_career_advice`
(echoes the first 50 characters of the user message). -/
def careerAdviceText (user_message : String) : String :=
  "💼 **Career Advice:**\n\nGreat question about \"" ++ user_message.take 50 ++
  "...\"! Here\x27s my take:\n\n✅ **Set clear goals** - Where do you want to be?\n✅ **Invest in skills** - What capabilities do you need?\n✅ **Build your network** - Relationships open doors\n✅ **Stay persistent** - Career growth takes time\n✅ **Track progress** - Regular self-assessment\n\n**Tell me more!** What\x27s your specific situation? 🎯"

/-- The default response in `send_default_message`. -/
def defaultReply : String :=
  "Thanks for reaching out! 😊\n\nI\x27m Coach Alex, your AI career advisor. I can help with:\n\n• 🎯 Career planning & goals\n• 📝 Resume & interview tips\n• 💰 Salary negotiation\n• 📈 Skill development\n• 🔍 Job search strategies\n\nWhat career topic can I help you with today?"

/-- The 3-option welcome menu built in `send_welcome_message`
(button id paired with its title). -/
def welcomeButtons : List (String × String) :=
  [("goals", "🎯 Career Goals"), ("resume", "📝 Resume Tips"), ("jobs", "🔍 Job Search")]

/-- The welcome string picked by `random.choice(WELCOME_MESSAGES)`, with the
random draw supplied as a natural number reduced modulo the list length. -/
def welcomeText (choice : Nat) : String :=
  WELCOME_MESSAGES.getD (choice % WELCOME_MESSAGES.length) ""

/-! The outbound side.  `requests.post` calls are recorded as `Effect`s;
whether a post returns status 200 is the input `net` (false also covers a
raised request exception, both make the sender return `False`). -/

/-- One outbound network call made by a sender (the `requests.post` to the
Graph API `messages` endpoint of the given phone number id). -/
inductive Effect
  | sendText (to_ : String) (text : String) (phoneNumberId : String)
  | sendButtons (to_ : String) (text : String) (buttons : List (String × String))
      (phoneNumberId : String)
deriving DecidableEq, Repr

/-- Sender `send_text_message`: without a truthy `phone_number_id` it logs and
returns `False` with no network call; otherwise it posts one text message and
returns whether the post reported status 200. -/
def send_text_message (to_ text : String) (phone_number_id : Option String)
    (net : Bool) : Bool × List Effect :=
  match phone_number_id with
  | none => (false, [])
  | some p => if p = "" then (false, []) else (net, [.sendText to_ text p])

/-- Sender `send_button_message`: same guard, posts one interactive button
message. -/
def send_button_message (to_ text : String) (buttons : List (String × String))
    (phone_number_id : Option String) (net : Bool) : Bool × List Effect :=
  match phone_number_id with
  | none => (false, [])
  | some p => if p = "" then (false, []) else (net, [.sendButtons to_ text buttons p])

/-- Sender `send_welcome_message`: without a truthy `phone_number_id` it logs
and returns; otherwise it sends a random welcome string with the fixed
3-option menu. -/
def send_welcome_message (to_ : String) (phone_number_id : Option String)
    (choice : Nat) (net : Bool) : List Effect :=
  if strTruthy phone_number_id = false then []
  else (send_button_message to_ (welcomeText choice) welcomeButtons phone_number_id net).2

/-- Sender `send_career_advice`: guard, then one text message with the
composed advice template. -/
def send_career_advice (to_ user_message : String) (phone_number_id : Option String)
    (net : Bool) : List Effect :=
  if strTruthy phone_number_id = false then []
  else (send_text_message to_ (careerAdviceText user_message) phone_number_id net).2

/-- Sender `send_default_message`: guard, then the default response. -/
def send_default_message (to_ : String) (phone_number_id : Option String)
    (net : Bool) : List Effect :=
  if strTruthy phone_number_id = false then []
  else (send_text_message to_ defaultReply phone_number_id net).2

/-! The router (`handle_text_message` and friends).  All matching is done on
the lower-cased text; Python `x in list` is exact membership, Python
`pat in text` is substring containment. -/

/-- Python `str.lower()` restricted to the ASCII range (every keyword the
router compares against is ASCII). -/
def lowerStr (s : String) : List Char := s.toList.map Char.toLower

/-- Exact membership in the test-keyword list `["test", "ping", "webhook"]`. -/
def isTestKeyword (t : List Char) : Bool :=
  (["test", "ping", "webhook"].map String.toList).contains t

/-- Substring search: does `pat` occur contiguously in `t` (Python
`pat in text`)? -/
def subSearch : List Char → List Char → Bool
  | pat, [] => pat.isEmpty
  | pat, c :: rest => List.isPrefixOf pat (c :: rest) || subSearch pat rest

/-- Substring containment of a keyword in the lower-cased text. -/
def hasSub (pat : String) (t : List Char) : Bool := subSearch pat.toList t

/-- The greeting check: `any(greeting in text_lower for greeting in
["hi", "hello", "hey", "start"])` — substring containment, not exact match. -/
def hasGreeting (t : List Char) : Bool :=
  ["hi", "hello", "hey", "start"].any fun g => hasSub g t

/-- The broader career-keyword check. -/
def hasCareerWord (t : List Char) : Bool :=
  ["job", "career", "work", "skills", "promotion"].any fun w => hasSub w t

/-- Handler `handle_text_message`: the decision chain, first match wins —
test keywords (exact), greetings (substring), then the topic table
resume / interview / salary-negotiat (substring, row order), then broad
career words, then the default reply.  The three topic branches and the last
two branches are guarded by `if phone_number_id:` at the call site. -/
def handle_text_message (sender text : String) (phone_number_id : Option String)
    (choice : Nat) (net : Bool) : List Effect :=
  let text_lower := lowerStr text
  if isTestKeyword text_lower then
    (send_text_message sender (testReply text) phone_number_id net).2
  else if hasGreeting text_lower then
    send_welcome_message sender phone_number_id choice net
  else if hasSub "resume" text_lower then
    if strTruthy phone_number_id then
      (send_text_message sender (CAREER_ADVICE "resume") phone_number_id net).2
    else []
  else if hasSub "interview" text_lower then
    if strTruthy phone_number_id then
      (send_text_message sender (CAREER_ADVICE "interview") phone_number_id net).2
    else []
  else if hasSub "salary" text_lower || hasSub "negotiat" text_lower then
    if strTruthy phone_number_id then
      (send_text_message sender (CAREER_ADVICE "salary") phone_number_id net).2
    else []
  else if hasCareerWord text_lower then
    if strTruthy phone_number_id then
      send_career_advice sender text phone_number_id net
    else []
  else
    if strTruthy phone_number_id then
      send_default_message sender phone_number_id net
    else []

/-- Handler `handle_button_reply`: fixed id-to-response mapping with a
generic fallback, sent only when `phone_number_id` is truthy. -/
def handle_button_reply (sender : String) (button_id : Option String)
    (phone_number_id : Option String) (net : Bool) : List Effect :=
  let response :=
    if button_id = some "goals" then goalsReply
    else if button_id = some "resume" then CAREER_ADVICE "resume"
    else if button_id = some "jobs" then jobsReply
    else unknownButtonReply
  if strTruthy phone_number_id then
    (send_text_message sender response phone_number_id net).2
  else []

/-! The provider payload shape read by `receive_webhook` and
`process_message` (`entry[].changes[].value` with `metadata`, `messages`,
`statuses`).  Every field the code reads through `dict.get` is `Option`al;
list fields default to `[]`. -/

/-- `value["metadata"]` — carries the phone number id used for replies. -/
structure Metadata where
  phone_number_id : Option String
deriving DecidableEq, Repr

/-- `message["text"]` — the body of a text message. -/
structure TextContent where
  body : String
deriving DecidableEq, Repr

/-- `interactive["button_reply"]` — the clicked button. -/
structure ButtonReplyContent where
  id : Option String
deriving DecidableEq, Repr

/-- `message["interactive"]` — an interactive reply envelope. -/
structure Interactive where
  type : Option String
  button_reply : Option ButtonReplyContent
deriving DecidableEq, Repr

/-- One message unit of the webhook payload. -/
structure Message where
  from_ : Option String
  type : Option String
  id : Option String
  text : Option TextContent
  interactive : Option Interactive
deriving DecidableEq, Repr

/-- One status unit (only logged by the code). -/
structure StatusUnit where
  status : Option String
  recipient_id : Option String
deriving DecidableEq, Repr

/-- `change["value"]`. -/
structure ChangeValue where
  metadata : Option Metadata
  messages : List Message
  statuses : List StatusUnit
deriving DecidableEq, Repr

/-- `entry["changes"][i]`. -/
structure Change where
  value : Option ChangeValue
deriving DecidableEq, Repr

/-- `body["entry"][i]`. -/
structure Entry where
  changes : List Change
deriving DecidableEq, Repr

/-- The parsed JSON body of a POST `/webhook` request. -/
structure Payload where
  object : Option String
  entry : List Entry
deriving DecidableEq, Repr

/-- The default `change.get("value", {})`. -/
def emptyValue : ChangeValue := ⟨none, [], []⟩

/-- Handler `process_message`: dispatches one message unit on its `type`
field — `text` to `handle_text_message`, `interactive`/`button_reply` to
`handle_button_reply`, `request_welcome` to `send_welcome_message`; every
other type is only logged.  Each branch runs only under `if sender:`. -/
def process_message (message : Message) (phone_number_id : Option String)
    (choice : Nat) (net : Bool) : List Effect :=
  let sender := message.from_
  if message.type = some "text" then
    let text_body := match message.text with
      | some t => t.body
      | none => ""
    if strTruthy sender then
      handle_text_message (sender.getD "") text_body phone_number_id choice net
    else []
  else if message.type = some "interactive" then
    if (message.interactive.bind Interactive.type) = some "button_reply" then
      let button_id := (message.interactive.bind Interactive.button_reply).bind
        ButtonReplyContent.id
      if strTruthy sender then
        handle_button_reply (sender.getD "") button_id phone_number_id net
      else []
    else []
  else if message.type = some "request_welcome" then
    if strTruthy sender then
      send_welcome_message (sender.getD "") phone_number_id choice net
    else []
  else []

/-- The processing loop inside the `try` block of `receive_webhook`: when the
payload is a `whatsapp_business_account` notification, walk
`entry[].changes[].value`, thread each value's `metadata.phone_number_id`
into `process_message` for every message unit, in payload order (statuses
are only logged).  The single `choice` draw stands for the random pick of
whichever welcome message the delivery triggers. -/
def processBody (body : Payload) (choice : Nat) (net : Bool) : List Effect :=
  if body.object = some "whatsapp_business_account" then
    (body.entry.map fun e =>
      (e.changes.map fun ch =>
        let value := ch.value.getD emptyValue
        let phone_number_id := value.metadata.bind Metadata.phone_number_id
        (value.messages.map fun m =>
          process_message m phone_number_id choice net).flatten).flatten).flatten
  else []

/-- The `try`/`except` wrapper around the processing loop: an exception
raised anywhere inside it (`exn = true`) is caught and logged; the effect
prefix already performed is abstracted away. -/
def tryProcessBody (body : Payload) (choice : Nat) (net : Bool)
    (exn : Bool) : List Effect :=
  if exn then [] else processBody body choice net

/-- The HTTP outcome of the POST `/webhook` handler: `ack` is the HTTP 200
response with the fixed JSON body carrying `status = EVENT_RECEIVED`;
`forbidden` is the raised 403 `HTTPException`; `unhandledError` is an
exception escaping the handler (the framework answers 500). -/
inductive WebhookOutcome
  | ack
  | forbidden (detail : String)
  | unhandledError
deriving DecidableEq, Repr

/-- The HTTP status of each outcome. -/
def statusOf : WebhookOutcome → Nat
  | .ack => 200
  | .forbidden _ => 403
  | .unhandledError => 500

/-- Handler `receive_webhook` (POST `/webhook`): first `await request.json()`
— a parse failure raises out of the handler before anything else runs; then,
only when `APP_SECRET` is truthy, the `X-Hub-Signature-256` header (defaulted
to `""`) is checked and a mismatch raises 403; finally the payload is
processed under `try`/`except` and the fixed acknowledgment is returned. -/
def receive_webhook (appSecret : Option String) (rawBody : Bytes)
    (sigHeader : Option String) (parsed : Option Payload)
    (choice : Nat) (net : Bool) (exn : Bool) : WebhookOutcome × List Effect :=
  match parsed with
  | none => (.unhandledError, [])
  | some body =>
    if strTruthy appSecret then
      if verify_webhook_signature appSecret rawBody (sigHeader.getD "") then
        (.ack, tryProcessBody body choice net exn)
      else (.forbidden "Invalid signature", [])
    else (.ack, tryProcessBody body choice net exn)

/-- The response of the GET `/webhook` handshake: either the literal
challenge echoed with the given media type, or the raised 403. -/
inductive VerifyResponse
  | challengeEcho (content : Option String) (mediaType : String)
  | forbidden (detail : String)
deriving DecidableEq, Repr

/-- The HTTP status of each handshake response. -/
def verifyStatus : VerifyResponse → Nat
  | .challengeEcho _ _ => 200
  | .forbidden _ => 403

/-- Handler `verify_webhook` (GET `/webhook`): succeed iff
`hub.mode == "subscribe"` and `hub.verify_token` equals the configured
token by exact string comparison, echoing the challenge as `text/plain`;
otherwise raise 403. -/
def verify_webhook (hub_mode hub_challenge hub_verify_token : Option String)
    (verifyToken : String) : VerifyResponse :=
  if hub_mode = some "subscribe" ∧ hub_verify_token = some verifyToken then
    .challengeEcho hub_challenge "text/plain"
  else .forbidden "Verification failed"

/-! The outbound-call orchestrator of `career_coach.py` (`entrypoint`),
modelled as a trace of lifecycle events.  External outcomes are inputs:
whether the job metadata parses and what it carries, whether
`create_sip_participant` succeeds (`TwirpError` on failure), whether
`start_room_composite_egress` succeeds and with which egress id, and whether
`stop_egress` succeeds. -/

/-- The parsed `dial_info` of the job metadata (`json.loads(ctx.job.metadata)`
followed by `.get("phone_number")`). -/
structure DialInfo where
  phone_number : Option String
deriving DecidableEq, Repr

/-- The state of `ctx.job.metadata`: absent/empty, unparseable JSON, or a
parsed object. -/
inductive MetadataInput
  | absent
  | unparseable
  | parsed (dial_info : DialInfo)
deriving DecidableEq, Repr

/-- The `phone_number` extracted by the metadata prelude of `entrypoint`
(`None` when the metadata is absent or raises on parse). -/
def extract_phone_number : MetadataInput → Option String
  | .absent => none
  | .unparseable => none
  | .parsed d => d.phone_number

/-- One observable step of the `entrypoint` lifecycle. -/
inductive CallEvent
  | dialAttempt (number : String)
  | dialConnected
  | dialFailed
  | shutdown
  | waitParticipant
  | participantConnected
  | recordStartAttempt
  | recordStarted (egressId : String)
  | recordStartFailed
  | sessionStarted
  | stopRecordingAttempt (egressId : String)
  | stopRecordingFailed
  | completed
deriving DecidableEq, Repr

/-- The tail of `entrypoint` after the participant is connected: the
recording block runs only when `phone_number` is truthy, a start failure is
caught and leaves `recording_id` unset, the agent session always starts, and
at session end the guard `if recording_id:` (Python truthiness — an empty
stored egress id is falsy and skips the stop) issues `stop_egress` with the
stored id, with a caught failure; the function then returns (`completed`). -/
def afterConnect (phone_number : Option String)
    (recStart : Except Unit String) (stopOk : Bool) : List CallEvent :=
  let recPart : Option String × List CallEvent :=
    if strTruthy phone_number then
      match recStart with
      | .ok egressId => (some egressId, [.recordStartAttempt, .recordStarted egressId])
      | .error _ => (none, [.recordStartAttempt, .recordStartFailed])
    else (none, [])
  .participantConnected :: (recPart.2 ++ [.sessionStarted] ++
    (if strTruthy recPart.1 then
      .stopRecordingAttempt (recPart.1.getD "")
        :: (if stopOk then [] else [.stopRecordingFailed])
     else []) ++ [.completed])

/-- The `entrypoint` of `career_coach.py` as a trace: a truthy phone number
makes the call outbound and dials first (`wait_until_answered`), a
`TwirpError` from the dial shuts the session down and returns before any
recording or agent session; otherwise (or for inbound sessions, which wait
for a participant) the connected tail runs. -/
def entrypoint (md : MetadataInput) (dialOk : Bool)
    (recStart : Except Unit String) (stopOk : Bool) : List CallEvent :=
  let phone_number := extract_phone_number md
  if strTruthy phone_number then
    match phone_number with
    | some number =>
      if dialOk then
        .dialAttempt number :: .dialConnected :: afterConnect phone_number recStart stopOk
      else [.dialAttempt number, .dialFailed, .shutdown]
    | none => []
  else
    .waitParticipant :: afterConnect phone_number recStart stopOk

/-- Scan a trace for the first occurrence among `participantConnected` and
`recordStartAttempt`: true when no recording start can precede the connect
confirmation. -/
def connectedBeforeRecording : List CallEvent → Bool
  | [] => true
  | .participantConnected :: _ => true
  | .recordStartAttempt :: _ => false
  | _ :: rest => connectedBeforeRecording rest

/-! Concrete payloads used to instantiate the theorems. -/

/-- A webhook delivery carrying one text message `ping` from sender `123`,
with `phone_number_id` `p1`. -/
def pingPayload : Payload :=
  ⟨some "whatsapp_business_account",
   [⟨[⟨some ⟨some ⟨some "p1"⟩,
        [⟨some "123", some "text", some "m1", some ⟨"ping"⟩, none⟩], []⟩⟩]⟩]⟩

/-- A webhook delivery carrying one text message `hi` from sender `123`,
whose metadata lacks `phone_number_id`. -/
def noPidPayload : Payload :=
  ⟨some "whatsapp_business_account",
   [⟨[⟨some ⟨some ⟨none⟩,
        [⟨some "123", some "text", some "m2", some ⟨"hi"⟩, none⟩], []⟩⟩]⟩]⟩

/-! Theorems. -/

/-- C4: the GET `/webhook` handshake echoes exactly the literal challenge as
`text/plain` iff `hub.mode` is `subscribe` and `hub.verify_token` equals the
configured token by exact string comparison; in every other case it answers
HTTP 403. -/
theorem verify_webhook_challenge_iff (m c t vt : String) :
    (verify_webhook (some m) (some c) (some t) vt
        = .challengeEcho (some c) "text/plain" ↔ (m = "subscribe" ∧ t = vt))
    ∧ (¬(m = "subscribe" ∧ t = vt) →
        verify_webhook (some m) (some c) (some t) vt = .forbidden "Verification failed"
        ∧ verifyStatus (verify_webhook (some m) (some c) (some t) vt) = 403)
    ∧ ((m = "subscribe" ∧ t = vt) →
        verifyStatus (verify_webhook (some m) (some c) (some t) vt) = 200) := by
  by_cases h : m = "subscribe" ∧ t = vt
  · obtain ⟨h1, h2⟩ := h
    subst h1
    subst h2
    simp [verify_webhook, verifyStatus]
  · have hcond : ¬(some m = some "subscribe" ∧ some t = some vt) := by
      simpa using h
    simp [verify_webhook, hcond, verifyStatus, h]

/-- Witness for C4 at a concrete verification request. -/
theorem verify_webhook_challenge_iff_witness :
    verify_webhook (some "subscribe") (some "1158201444")
      (some "career_coach_verify_token") "career_coach_verify_token"
      = .challengeEcho (some "1158201444") "text/plain" :=
  (verify_webhook_challenge_iff "subscribe" "1158201444"
    "career_coach_verify_token" "career_coach_verify_token").1.mpr ⟨rfl, rfl⟩

/-- C5: the input `I need resume and interview help` resolves
(case-insensitively) to the resume advice, and in general, for free text
that hits neither the test keywords nor a greeting, the first matching row
of the topic table wins: `resume` beats everything, `interview` wins when
`resume` is absent. -/
theorem route_resume_first_row_wins (sender p text : String) (choice : Nat)
    (net : Bool) (hp : p ≠ "") :
    handle_text_message sender "I need resume and interview help" (some p) choice net
      = [.sendText sender (CAREER_ADVICE "resume") p]
    ∧ (isTestKeyword (lowerStr text) = false → hasGreeting (lowerStr text) = false →
        hasSub "resume" (lowerStr text) = true →
        handle_text_message sender text (some p) choice net
          = [.sendText sender (CAREER_ADVICE "resume") p])
    ∧ (isTestKeyword (lowerStr text) = false → hasGreeting (lowerStr text) = false →
        hasSub "resume" (lowerStr text) = false →
        hasSub "interview" (lowerStr text) = true →
        handle_text_message sender text (some p) choice net
          = [.sendText sender (CAREER_ADVICE "interview") p]) := by
  refine ⟨?_, ?_, ?_⟩
  · have h1 : isTestKeyword (lowerStr "I need resume and interview help") = false := by
      decide
    have h2 : hasGreeting (lowerStr "I need resume and interview help") = false := by
      decide
    have h3 : hasSub "resume" (lowerStr "I need resume and interview help") = true := by
      decide
    simp [handle_text_message, h1, h2, h3, send_text_message, strTruthy, hp]
  · intro h1 h2 h3
    simp [handle_text_message, h1, h2, h3, send_text_message, strTruthy, hp]
  · intro h1 h2 h3 h4
    simp [handle_text_message, h1, h2, h3, h4, send_text_message, strTruthy, hp]

/-- Witness for C5 at the concrete claim input. -/
theorem route_resume_first_row_wins_witness :
    handle_text_message "123" "I need resume and interview help" (some "p1") 0 true
      = [.sendText "123" (CAREER_ADVICE "resume") "p1"] :=
  (route_resume_first_row_wins "123" "p1" "x" 0 true (by decide)).1

/-- C6 counterexample: the text `this` is not an exact greeting keyword, yet
it triggers the WelcomeReply, because the code matches greetings by
substring containment (`hi` occurs inside `this`), not by exact match. -/
theorem route_substring_greeting_triggers_welcome :
    handle_text_message "123" "this" (some "p1") 0 true
      = [.sendButtons "123" (WELCOME_MESSAGES.getD 0 "") welcomeButtons "p1"]
    ∧ "this" ∉ ["hi", "hello", "hey", "start"]
    ∧ lowerStr "this" = "this".toList := by
  refine ⟨by decide, by decide, by decide⟩

/-- C7 counterexample: delivering the identical text unit `hi` twice can
produce different reply content, because the welcome string is drawn by
`random.choice` on each delivery. -/
theorem route_welcome_nondeterministic :
    handle_text_message "123" "hi" (some "p1") 0 true
      ≠ handle_text_message "123" "hi" (some "p1") 1 true := by
  decide

/-- The welcome string drawn for any random choice lies in the fixed
`WELCOME_MESSAGES` set. -/
theorem welcomeText_mem (choice : Nat) : welcomeText choice ∈ WELCOME_MESSAGES := by
  have hl : WELCOME_MESSAGES.length = 3 := rfl
  have h : choice % 3 = 0 ∨ choice % 3 = 1 ∨ choice % 3 = 2 := by omega
  unfold welcomeText
  rw [hl]
  rcases h with h | h | h <;> rw [h] <;> decide

/-- C6 amended: with a truthy `phone_number_id`, a text resolves to the
WelcomeReply (a welcome string plus the fixed 3-option menu
goals / resume / jobs) exactly when its lowercased body is not one of the
test keywords and CONTAINS a greeting keyword as a substring; in particular
the body `hi` yields the WelcomeReply carrying the 3-option menu. -/
theorem route_welcome_iff_greeting_substring (sender text p : String)
    (choice : Nat) (net : Bool) (hp : p ≠ "") :
    (handle_text_message sender text (some p) choice net
        = [.sendButtons sender (welcomeText choice) welcomeButtons p]
      ↔ (isTestKeyword (lowerStr text) = false ∧ hasGreeting (lowerStr text) = true))
    ∧ handle_text_message sender "hi" (some p) choice net
        = [.sendButtons sender (welcomeText choice) welcomeButtons p]
    ∧ welcomeButtons.length = 3
    ∧ welcomeButtons.map Prod.fst = ["goals", "resume", "jobs"] := by
  have hwelcome : ∀ s : String,
      send_welcome_message s (some p) choice net
        = [.sendButtons s (welcomeText choice) welcomeButtons p] := by
    intro s
    simp [send_welcome_message, send_button_message, strTruthy, hp]
  refine ⟨⟨?_, ?_⟩, ?_, by decide, by decide⟩
  · intro heq
    by_cases h1 : isTestKeyword (lowerStr text) = true
    · exfalso
      simp only [handle_text_message, h1, if_true] at heq
      simp [send_text_message, hp] at heq
    · rw [Bool.not_eq_true] at h1
      by_cases h2 : hasGreeting (lowerStr text) = true
      · exact ⟨h1, h2⟩
      · exfalso
        rw [Bool.not_eq_true] at h2
        simp only [handle_text_message, h1, h2, Bool.false_eq_true, if_false] at heq
        have hpt : strTruthy (some p) = true := by
          simp [strTruthy, hp]
        rw [hpt] at heq
        split at heq
        · simp [send_text_message, hp] at heq
        · split at heq
          · simp [send_text_message, hp] at heq
          · split at heq
            · simp [send_text_message, hp] at heq
            · split at heq
              · simp [send_career_advice, send_text_message, strTruthy, hp] at heq
              · simp [send_default_message, send_text_message, strTruthy, hp] at heq
  · rintro ⟨h1, h2⟩
    simp only [handle_text_message, h1, h2, Bool.false_eq_true, if_false, if_true]
    exact hwelcome sender
  · have h1 : isTestKeyword (lowerStr "hi") = false := by decide
    have h2 : hasGreeting (lowerStr "hi") = true := by decide
    simp only [handle_text_message, h1, h2, Bool.false_eq_true, if_false, if_true]
    exact hwelcome sender

/-- Witness for the amended C6 at the concrete body `hi`. -/
theorem route_welcome_iff_greeting_substring_witness :
    handle_text_message "123" "hi" (some "p1") 2 true
      = [.sendButtons "123" (welcomeText 2) welcomeButtons "p1"] :=
  (route_welcome_iff_greeting_substring "123" "hi" "p1" 2 true (by decide)).2.1

/-- Two random draws against `send_welcome_message` either agree or both
produce a welcome menu whose text lies in the fixed set. -/
theorem send_welcome_two_draws (s : String) (pid : Option String)
    (c1 c2 : Nat) (net : Bool) :
    send_welcome_message s pid c1 net = send_welcome_message s pid c2 net
    ∨ ∃ p t1 t2, t1 ∈ WELCOME_MESSAGES ∧ t2 ∈ WELCOME_MESSAGES
        ∧ send_welcome_message s pid c1 net = [.sendButtons s t1 welcomeButtons p]
        ∧ send_welcome_message s pid c2 net = [.sendButtons s t2 welcomeButtons p] := by
  match pid with
  | none => exact Or.inl rfl
  | some p =>
    by_cases hp : p = ""
    · subst hp
      exact Or.inl rfl
    · refine Or.inr ⟨p, welcomeText c1, welcomeText c2,
        welcomeText_mem c1, welcomeText_mem c2, ?_, ?_⟩ <;>
        simp [send_welcome_message, send_button_message, strTruthy, hp]

/-- Two random draws against `handle_text_message` either agree or both
produce a welcome menu whose text lies in the fixed set. -/
theorem handle_text_two_draws (s text : String) (pid : Option String)
    (c1 c2 : Nat) (net : Bool) :
    handle_text_message s text pid c1 net = handle_text_message s text pid c2 net
    ∨ ∃ p t1 t2, t1 ∈ WELCOME_MESSAGES ∧ t2 ∈ WELCOME_MESSAGES
        ∧ handle_text_message s text pid c1 net = [.sendButtons s t1 welcomeButtons p]
        ∧ handle_text_message s text pid c2 net = [.sendButtons s t2 welcomeButtons p] := by
  by_cases h1 : isTestKeyword (lowerStr text) = true
  · exact Or.inl (by simp only [handle_text_message, h1, if_true])
  · rw [Bool.not_eq_true] at h1
    by_cases h2 : hasGreeting (lowerStr text) = true
    · have hr : ∀ c, handle_text_message s text pid c net
          = send_welcome_message s pid c net := by
        intro c
        simp only [handle_text_message, h1, h2, Bool.false_eq_true, if_false, if_true]
      rw [hr c1, hr c2]
      exact send_welcome_two_draws s pid c1 c2 net
    · rw [Bool.not_eq_true] at h2
      exact Or.inl (by
        simp only [handle_text_message, h1, h2, Bool.false_eq_true, if_false])

/-- C7 amended: the routing decision is a deterministic function of the
message unit — duplicate webhook redelivery of the identical unit yields
either literally identical outbound effects, or (only on the WelcomeReply
path, where `random.choice` picks the welcome string) two welcome menus to
the same recipient with the identical 3-option menu whose texts both come
from the fixed `WELCOME_MESSAGES` set. -/
theorem route_deterministic_modulo_welcome (msg : Message)
    (pid : Option String) (c1 c2 : Nat) (net : Bool) :
    process_message msg pid c1 net = process_message msg pid c2 net
    ∨ ∃ s p t1 t2, t1 ∈ WELCOME_MESSAGES ∧ t2 ∈ WELCOME_MESSAGES
        ∧ process_message msg pid c1 net = [.sendButtons s t1 welcomeButtons p]
        ∧ process_message msg pid c2 net = [.sendButtons s t2 welcomeButtons p] := by
  by_cases ht : msg.type = some "text"
  · by_cases hs : strTruthy msg.from_ = true
    · have hr : ∀ c, process_message msg pid c net
          = handle_text_message (msg.from_.getD "")
              (match msg.text with | some t => t.body | none => "") pid c net := by
        intro c
        simp [process_message, ht, hs]
      rw [hr c1, hr c2]
      rcases handle_text_two_draws (msg.from_.getD "")
          (match msg.text with | some t => t.body | none => "") pid c1 c2 net with
        h | ⟨p, t1, t2, hm1, hm2, he1, he2⟩
      · exact Or.inl h
      · exact Or.inr ⟨msg.from_.getD "", p, t1, t2, hm1, hm2, he1, he2⟩
    · rw [Bool.not_eq_true] at hs
      exact Or.inl (by simp [process_message, ht, hs])

  · by_cases hi : msg.type = some "interactive"
    · exact Or.inl (by simp [process_message, ht, hi])
    · by_cases hw : msg.type = some "request_welcome"
      · by_cases hs : strTruthy msg.from_ = true
        · have hr : ∀ c, process_message msg pid c net
              = send_welcome_message (msg.from_.getD "") pid c net := by
            intro c
            simp [process_message, ht, hi, hw, hs]
          rw [hr c1, hr c2]
          rcases send_welcome_two_draws (msg.from_.getD "") pid c1 c2 net with
            h | ⟨p, t1, t2, hm1, hm2, he1, he2⟩
          · exact Or.inl h
          · exact Or.inr ⟨msg.from_.getD "", p, t1, t2, hm1, hm2, he1, he2⟩
        · rw [Bool.not_eq_true] at hs
          exact Or.inl (by simp [process_message, ht, hi, hw, hs])

      · exact Or.inl (by simp [process_message, ht, hi, hw])

/-- C8: in every `entrypoint` trace a recording start can only follow the
connect confirmation (the first of the two events to occur is always
`participantConnected`); after a dial failure the orchestrator shuts the
session down and never attempts recording; and a session with no truthy
destination phone number never attempts recording. -/
theorem recording_only_after_connected (md : MetadataInput) (dialOk : Bool)
    (recStart : Except Unit String) (stopOk : Bool) :
    connectedBeforeRecording (entrypoint md dialOk recStart stopOk) = true
    ∧ (strTruthy (extract_phone_number md) = true →
        CallEvent.recordStartAttempt ∉ entrypoint md false recStart stopOk
        ∧ CallEvent.shutdown ∈ entrypoint md false recStart stopOk)
    ∧ (strTruthy (extract_phone_number md) = false →
        CallEvent.recordStartAttempt ∉ entrypoint md dialOk recStart stopOk) := by
  have hafter : ∀ pn, connectedBeforeRecording (afterConnect pn recStart stopOk)
      = true := by
    intro pn
    simp [afterConnect, connectedBeforeRecording]
  rcases hmd : extract_phone_number md with _ | s
  · refine ⟨?_, ?_, ?_⟩
    · simp [entrypoint, hmd, strTruthy, connectedBeforeRecording, hafter none]
    · intro h
      simp [strTruthy] at h
    · intro _
      simp [entrypoint, hmd, strTruthy, afterConnect, List.mem_cons]
  · by_cases hs : s = ""
    · subst hs
      refine ⟨?_, ?_, ?_⟩
      · simp [entrypoint, hmd, strTruthy, connectedBeforeRecording, hafter (some "")]
      · intro h
        simp [strTruthy] at h
      · intro _
        simp [entrypoint, hmd, strTruthy, afterConnect, List.mem_cons]
    · have htr : strTruthy (some s) = true := by simp [strTruthy, hs]
      refine ⟨?_, ?_, ?_⟩
      · cases dialOk
        · simp [entrypoint, hmd, htr, connectedBeforeRecording]
        · simp [entrypoint, hmd, htr, connectedBeforeRecording, hafter (some s)]
      · intro _
        constructor
        · simp [entrypoint, hmd, htr, List.mem_cons]
        · simp [entrypoint, hmd, htr, List.mem_cons]
      · intro h
        rw [htr] at h
        exact absurd h (by simp)

/-- Witness for C8: a failed dial shuts down without any recording
attempt. -/
theorem recording_only_after_connected_witness :
    CallEvent.recordStartAttempt
        ∉ entrypoint (.parsed ⟨some "+15550001234"⟩) false (.ok "eg1") true
    ∧ CallEvent.shutdown
        ∈ entrypoint (.parsed ⟨some "+15550001234"⟩) false (.ok "eg1") true :=
  (recording_only_after_connected (.parsed ⟨some "+15550001234"⟩) true
    (.ok "eg1") true).2.1 (by decide)

/-- C9 counterexample: a recording start that succeeds with the empty
egress id stores a falsy `recording_id`, so the guard `if recording_id:`
skips stop-recording at session end even though a recording id was stored
— refuting the claim that a stop is issued whenever an id was stored.
Teardown still completes. -/
theorem stop_skipped_for_empty_egress_id :
    CallEvent.recordStarted ""
        ∈ entrypoint (.parsed ⟨some "+15550001234"⟩) true (.ok "") true
    ∧ CallEvent.stopRecordingAttempt ""
        ∉ entrypoint (.parsed ⟨some "+15550001234"⟩) true (.ok "") true
    ∧ CallEvent.completed
        ∈ entrypoint (.parsed ⟨some "+15550001234"⟩) true (.ok "") true := by
  decide

/-- C9 amended: `stop_egress` is issued with a given egress id exactly when
the recording start stored that id and the id is truthy (non-empty) — an
empty stored id is falsy under Python truthiness and the stop is skipped; a
stop failure never prevents the function from completing its teardown; and
a recording-start failure leaves `recording_id` unset (no `recordStarted`,
no stop is ever attempted) while the agent session still starts whenever
the dial stage was passed. -/
theorem stop_recording_iff_recorded (md : MetadataInput) (dialOk : Bool)
    (recStart : Except Unit String) (stopOk : Bool) :
    (∀ egressId, CallEvent.stopRecordingAttempt egressId
          ∈ entrypoint md dialOk recStart stopOk
        ↔ (egressId ≠ ""
            ∧ CallEvent.recordStarted egressId
                ∈ entrypoint md dialOk recStart stopOk))
    ∧ (CallEvent.sessionStarted ∈ entrypoint md dialOk recStart stopOk →
        CallEvent.completed ∈ entrypoint md dialOk recStart stopOk)
    ∧ (recStart = .error () →
        (∀ egressId, CallEvent.recordStarted egressId
            ∉ entrypoint md dialOk recStart stopOk)
        ∧ (∀ egressId, CallEvent.stopRecordingAttempt egressId
            ∉ entrypoint md dialOk recStart stopOk)
        ∧ ((strTruthy (extract_phone_number md) = true → dialOk = true) →
            CallEvent.sessionStarted ∈ entrypoint md dialOk recStart stopOk)) := by
  rcases hmd : extract_phone_number md with _ | s
  · refine ⟨?_, ?_, ?_⟩ <;>
      simp [entrypoint, hmd, strTruthy, afterConnect, List.mem_cons]
  · by_cases hs : s = ""
    · subst hs
      refine ⟨?_, ?_, ?_⟩ <;>
        simp [entrypoint, hmd, strTruthy, afterConnect, List.mem_cons]
    · have htr : strTruthy (some s) = true := by simp [strTruthy, hs]
      cases dialOk
      · refine ⟨?_, ?_, ?_⟩ <;>
          simp [entrypoint, hmd, htr, hs, strTruthy, List.mem_cons]
      · rcases recStart with _ | egid
        · refine ⟨?_, ?_, ?_⟩ <;>
            simp [entrypoint, hmd, htr, hs, strTruthy, afterConnect, List.mem_cons]
        · by_cases hegid : egid = ""
          · subst hegid
            refine ⟨?_, ?_, ?_⟩ <;>
              simp [entrypoint, hmd, htr, hs, strTruthy, afterConnect, List.mem_cons]
          · refine ⟨?_, ?_, ?_⟩
            · intro e
              simp only [entrypoint, hmd, htr, afterConnect, strTruthy] at *
              simp [hs, hegid, List.mem_cons]
              rintro rfl
              exact hegid
            · simp [entrypoint, hmd, htr, hs, hegid, strTruthy, afterConnect,
                List.mem_cons]
            · simp [entrypoint, hmd, htr, hs, hegid, strTruthy, afterConnect,
                List.mem_cons]

/-- Witness for C9: with a failed recording start on a connected outbound
call, no stop is attempted for a concrete egress id and the session still
starts. -/
theorem stop_recording_iff_recorded_witness :
    CallEvent.stopRecordingAttempt "eg1"
        ∉ entrypoint (.parsed ⟨some "+15550001234"⟩) true (.error ()) true
    ∧ CallEvent.sessionStarted
        ∈ entrypoint (.parsed ⟨some "+15550001234"⟩) true (.error ()) true := by
  have h := (stop_recording_iff_recorded (.parsed ⟨some "+15550001234"⟩) true
    (.error ()) true).2.2 rfl
  exact ⟨h.2.1 "eg1", h.2.2 (by intro _; rfl)⟩

/-- With no `phone_number_id`, the text handler dispatches nothing. -/
theorem handle_text_message_none (sender text : String) (choice : Nat) (net : Bool) :
    handle_text_message sender text none choice net = [] := by
  simp [handle_text_message, send_text_message, send_welcome_message, strTruthy]

/-- With no `phone_number_id`, the button handler dispatches nothing. -/
theorem handle_button_reply_none (sender : String) (button_id : Option String)
    (net : Bool) :
    handle_button_reply sender button_id none net = [] := by
  simp [handle_button_reply, strTruthy]

/-- With no `phone_number_id`, no message unit dispatches anything. -/
theorem process_message_none (msg : Message) (choice : Nat) (net : Bool) :
    process_message msg none choice net = [] := by
  simp [process_message, handle_text_message_none, handle_button_reply_none,
    send_welcome_message, strTruthy]

/-- C10: with `phone_number_id` absent, `send_text_message` and
`send_button_message` return `False` with no outbound network call,
`send_welcome_message` returns without sending, and a webhook delivery
whose changes all lack `metadata.phone_number_id` dispatches no reply at
all. -/
theorem no_phone_number_id_no_send (to_ text : String)
    (buttons : List (String × String)) (net : Bool) (choice : Nat) :
    send_text_message to_ text none net = (false, [])
    ∧ send_button_message to_ text buttons none net = (false, [])
    ∧ send_welcome_message to_ none choice net = []
    ∧ ∀ body : Payload,
        (∀ e ∈ body.entry, ∀ ch ∈ e.changes,
          ((ch.value.getD emptyValue).metadata.bind Metadata.phone_number_id)
            = none) →
        processBody body choice net = [] := by
  refine ⟨rfl, rfl, rfl, ?_⟩
  intro body hpid
  unfold processBody
  by_cases ho : body.object = some "whatsapp_business_account"
  · rw [if_pos ho]
    refine List.flatten_eq_nil_iff.mpr ?_
    intro l hl
    rcases List.mem_map.mp hl with ⟨e, he, rfl⟩
    refine List.flatten_eq_nil_iff.mpr ?_
    intro l2 hl2
    rcases List.mem_map.mp hl2 with ⟨ch, hch, rfl⟩
    refine List.flatten_eq_nil_iff.mpr ?_
    intro l3 hl3
    rcases List.mem_map.mp hl3 with ⟨m, _, rfl⟩
    rw [hpid e he ch hch]
    exact process_message_none m choice net
  · rw [if_neg ho]

/-- Witness for C10: the concrete delivery without a `phone_number_id`
dispatches nothing. -/
theorem no_phone_number_id_no_send_witness :
    processBody noPidPayload 0 true = [] :=
  (no_phone_number_id_no_send "x" "y" [] true 0).2.2.2 noPidPayload (by decide)

/-- C1 counterexample: a POST `/webhook` request whose body is unparseable
JSON (with signature checking disabled) is not acknowledged with HTTP 200:
the `await request.json()` call raises before the `try` block, the
exception escapes the handler, and nothing is processed. -/
theorem receive_webhook_unparseable_not_acked :
    receive_webhook none [] none none 0 true false = (.unhandledError, [])
    ∧ statusOf (receive_webhook none [] none none 0 true false).1 = 500
    ∧ (receive_webhook none [] none none 0 true false).1 ≠ .ack := by
  refine ⟨rfl, rfl, by decide⟩

/-- C1 amended: whenever the request body parses as JSON and signature
checking is disabled or the signature verifies, the handler acknowledges
with HTTP 200 and the fixed `EVENT_RECEIVED` body, regardless of how many
message units fail during downstream processing (any exception inside the
processing loop is swallowed). -/
theorem receive_webhook_always_acks_parsed (appSecret : Option String)
    (rawBody : Bytes) (sigHeader : Option String) (body : Payload)
    (choice : Nat) (net exn : Bool)
    (h : strTruthy appSecret = false
      ∨ verify_webhook_signature appSecret rawBody (sigHeader.getD "") = true) :
    (receive_webhook appSecret rawBody sigHeader (some body) choice net exn).1 = .ack
    ∧ statusOf
        (receive_webhook appSecret rawBody sigHeader (some body) choice net exn).1
        = 200 := by
  rcases h with h | h
  · simp [receive_webhook, h, statusOf]
  · by_cases hs : strTruthy appSecret = true
    · simp [receive_webhook, hs, h, statusOf]
    · rw [Bool.not_eq_true] at hs
      simp [receive_webhook, hs, statusOf]

/-- Witness for the amended C1: a parsed delivery is acknowledged even when
the processing loop raises. -/
theorem receive_webhook_always_acks_parsed_witness :
    (receive_webhook none [] none (some pingPayload) 0 true true).1 = .ack :=
  (receive_webhook_always_acks_parsed none [] none pingPayload 0 true true
    (Or.inl rfl)).1

/-- C2 counterexample: with `APP_SECRET` not configured, a POST `/webhook`
request is not rejected with 403 — it is acknowledged with HTTP 200 and the
message handler runs (an outbound reply is dispatched). -/
theorem receive_webhook_no_secret_processes :
    (receive_webhook none [] none (some pingPayload) 0 true false).1 = .ack
    ∧ statusOf (receive_webhook none [] none (some pingPayload) 0 true false).1
        ≠ 403
    ∧ (receive_webhook none [] none (some pingPayload) 0 true false).2
        = [.sendText "123" (testReply "ping") "p1"] := by
  refine ⟨rfl, by decide, by decide⟩

/-- C2 amended: with `APP_SECRET` not configured (unset or empty), signature
verification is skipped entirely — the payload is processed normally and
acknowledged with HTTP 200; only the verifier function itself fails closed
(it returns false for every signature when the secret is missing), and the
handler never invokes it in that case. -/
theorem receive_webhook_no_secret_skips_verification (appSecret : Option String)
    (rawBody : Bytes) (sigHeader : Option String) (body : Payload)
    (choice : Nat) (net exn : Bool) (sig : String)
    (h : strTruthy appSecret = false) :
    receive_webhook appSecret rawBody sigHeader (some body) choice net exn
      = (.ack, tryProcessBody body choice net exn)
    ∧ verify_webhook_signature appSecret rawBody sig = false := by
  constructor
  · simp [receive_webhook, h]
  · match appSecret with
    | none => rfl
    | some secret =>
      have hsec : secret = "" := by
        simpa [strTruthy] using h
      subst hsec
      simp [verify_webhook_signature]

/-- Witness for the amended C2 at a concrete delivery. -/
theorem receive_webhook_no_secret_skips_verification_witness :
    receive_webhook none [] none (some pingPayload) 0 true false
      = (.ack, tryProcessBody pingPayload 0 true false) :=
  (receive_webhook_no_secret_skips_verification none [] none pingPayload 0 true
    false "sha256=deadbeef" rfl).1

/-- Every character produced by `hexChar` lies in the hex alphabet. -/
theorem hexChar_mem (n : Nat) : hexChar n ∈ "0123456789abcdef".toList := by
  unfold hexChar List.getD
  cases h : "0123456789abcdef".toList.get? n with
  | none => decide
  | some c =>
    have hm := List.get?_mem h
    simpa using hm

/-- Every character of a hex digest lies in the hex alphabet. -/
theorem hexdigest_chars (bytes : Bytes) :
    ∀ c ∈ (hexdigest bytes).toList, c ∈ "0123456789abcdef".toList := by
  intro c hc
  have hc2 : c ∈ (bytes.map byteHex).flatten := by
    simpa [hexdigest, String.toList] using hc
  rcases List.mem_flatten.mp hc2 with ⟨chunk, hchunk, hcin⟩
  rcases List.mem_map.mp hchunk with ⟨b, _, rfl⟩
  simp only [byteHex, List.mem_cons, List.not_mem_nil, or_false] at hcin
  rcases hcin with rfl | rfl
  · exact hexChar_mem _
  · exact hexChar_mem _

/-- `str.replace("sha256=", "")` leaves a string without `s` untouched. -/
theorem replaceSha256_no_s (l : List Char) (h : ∀ c ∈ l, c ≠ 's') :
    replaceSha256 l = l := by
  induction l with
  | nil => rw [replaceSha256]
  | cons c rest ih =>
    have hc : ¬('s' = c) := fun hh => h c (List.mem_cons_self c rest) hh.symm
    rw [replaceSha256, if_neg]
    · rw [ih fun x hx => h x (List.mem_cons_of_mem c hx)]
    · rw [show "sha256=".toList = 's' :: "ha256=".toList from rfl]
      simp [List.isPrefixOf, hc]

/-- `str.replace("sha256=", "")` strips a single leading `sha256=` from a
header whose remainder has no `s`. -/
theorem replaceSha256_strip (l : List Char) (h : ∀ c ∈ l, c ≠ 's') :
    replaceSha256 ("sha256=".toList ++ l) = l := by
  rw [show "sha256=".toList ++ l
      = 's' :: ('h' :: 'a' :: '2' :: '5' :: '6' :: '=' :: l) from rfl]
  rw [replaceSha256, if_pos]
  · rw [show List.drop 6 ('h' :: 'a' :: '2' :: '5' :: '6' :: '=' :: l) = l from rfl]
    exact replaceSha256_no_s l h
  · simp [List.isPrefixOf]

/-- The verifier accepts the correctly signed header for the exact raw
payload bytes: recomputing HMAC-SHA256 under the configured secret and
prefixing `sha256=` always verifies. -/
theorem verify_webhook_signature_accepts_valid (secret : String) (payload : Bytes)
    (hsec : secret ≠ "") :
    verify_webhook_signature (some secret) payload
      ("sha256=" ++ hexdigest (hmacSha256 (strBytes secret) payload)) = true := by
  have hchars : ∀ c ∈ (hexdigest (hmacSha256 (strBytes secret) payload)).toList,
      c ≠ 's' := by
    intro c hc he
    subst he
    exact absurd (hexdigest_chars _ _ hc) (by decide)
  simp only [verify_webhook_signature]
  rw [if_neg]
  · have htl : ("sha256=" ++ hexdigest (hmacSha256 (strBytes secret) payload)).toList
        = "sha256=".toList
          ++ (hexdigest (hmacSha256 (strBytes secret) payload)).toList := by
      simp
    rw [htl, replaceSha256_strip _ hchars]
    simp
  · rintro (hemp | hemp)
    · have hlen := congrArg String.length hemp
      rw [String.length_append] at hlen
      have h7 : "sha256=".length = 7 := rfl
      have h0 : "".length = 0 := rfl
      rw [h7, h0] at hlen
      omega
    · exact hsec hemp

/-- The verifier rejects an empty (or absent, defaulted-to-empty) signature
header outright, for every configured secret. -/
theorem verify_webhook_signature_rejects_empty (appSecret : Option String)
    (payload : Bytes) :
    verify_webhook_signature appSecret payload "" = false := by
  cases appSecret with
  | none => rfl
  | some s => simp [verify_webhook_signature]

end CareerVoiceAgent
